import Mathlib

/-!
Verification development for the ARIA-tools-docs repository.

The repository consists of Jupyter notebooks:
  * `JupyterDocs/GDAL_basics/GDAL_basics.ipynb` (two notebooks in the file:
    the GDAL basics tutorial and the ariaDownload tutorial), and
  * `JupyterDocs/ariaPlot/ariaPlot_tutorial.ipynb`.

The development has two parts.

1. A behavioural shallow embedding of the Python code the notebooks define
   themselves: the `plot_layer` function of the ariaPlot tutorial and the
   masking cell of the GDAL basics tutorial.  Pixel values are modelled as
   rationals (the comparisons `> 1e20` and `==` used by the code are exact
   relations, which rationals model faithfully for every representable
   float value); a fallible call is modelled as `Except`; the relevant
   parts of the external numpy masked-array API are modelled from its
   documented contract, as noted at each definition.

2. A structural embedding: statement-level inventories of every code cell
   of the three notebooks, transcribed from the source, over which the
   structural claims (cell categories, error-handling constructs, handle
   lifecycle, CLI invocations, string-literal usage, cross-cell state) are
   stated as decidable properties.
-/

/-! ### Part 1: behavioural embedding of `plot_layer`
(ariaPlot_tutorial.ipynb, the setup cell `def plot_layer(...)`). -/

/-- The literal `1e20` appearing in `plot_layer` (`arr>1e20`), as an exact
rational. -/
def oneE20 : ℚ := 100000000000000000000

/-- A GDAL raster band as seen by the in-repo code: its pixel values
(flattened), and the result of the external call
`raster.GetNoDataValue()`, which either returns a value (`some d`), returns
the Python `None` (`none`, when the band has no no-data value set), or
raises (`Except.error`). -/
structure RasterBand where
  data : List ℚ
  noDataQuery : Except Unit (Option ℚ)

/-- The GDAL geotransform 6-tuple returned by `ds.GetGeoTransform()`, with
components in GDAL order: `trans[0]`..`trans[5]`. -/
structure GeoTransform where
  t0 : ℚ
  t1 : ℚ
  t2 : ℚ
  t3 : ℚ
  t4 : ℚ
  t5 : ℚ

/-- A GDAL dataset handle as read by `plot_layer`: `RasterXSize`,
`RasterYSize`, `GetGeoTransform()`, and the bands (`RasterCount` is
`bands.length`; `GetRasterBand(i+1)` is `bands[i]`). -/
structure GDALDataset where
  rasterXSize : ℕ
  rasterYSize : ℕ
  geoTransform : GeoTransform
  bands : List RasterBand

/-- Modelled from the numpy documented contract of `np.ma.masked_where
(condition, a)`: returns `a` as a masked array, masked exactly where the
elementwise condition holds.  An element is the pair (value, masked?). -/
def masked_where (cond : ℚ → Bool) (arr : List ℚ) : List (ℚ × Bool) :=
  arr.map (fun v => (v, cond v))

/-- The elementwise Python comparison `arr == NoData` for a single element,
where `NoData` came from `GetNoDataValue()`: comparison with a float value
is equality, and comparison with the Python `None` is elementwise `False`
(numpy never equates a float entry with `None`). -/
def pyEqNoData (v : ℚ) (NoData : Option ℚ) : Bool :=
  match NoData with
  | some d => decide (v = d)
  | none => false

/-- The body of the band loop of `plot_layer`:

```
arr = raster.ReadAsArray()
try:
    NoData = raster.GetNoDataValue()
    arr = np.ma.masked_where((arr>1e20) |(arr==NoData),arr )
except:
    print('Could not find a no-data value...')
    arr = np.ma.masked_where(arr>1e20,arr)
```

If the `GetNoDataValue` query raises, the handler masks by the threshold
alone and the loop continues. -/
def processBand (raster : RasterBand) : List (ℚ × Bool) :=
  match raster.noDataQuery with
  | Except.ok NoData =>
      masked_where (fun v => decide (v > oneE20) || pyEqNoData v NoData) raster.data
  | Except.error _ =>
      masked_where (fun v => decide (v > oneE20)) raster.data

/-- The data computed by `plot_layer` up to the hand-off to the external
plotting library: the extent, the subplot grid shape (`nrows`, `ncols`)
and the list of masked band arrays.  The subsequent colormap selection and
figure drawing are calls into the external plotting library on these
values and are not modelled. -/
structure PlotResult where
  extent : ℚ × ℚ × ℚ × ℚ
  nrows : ℕ
  ncols : ℕ
  arrs : List (List (ℚ × Bool))

/-- The `plot_layer` function of the ariaPlot tutorial (the part of its
body that computes data, in source order):

```
ds       = gdal.Open(path_layer, gdal.GA_ReadOnly)
trans    = ds.GetGeoTransform()
extent   = [trans[0], trans[0] + ds.RasterXSize * trans[1],
            trans[3] + ds.RasterYSize*trans[5], trans[3]]
n_bands  = ds.RasterCount
lst_arrs = []
for band in range(n_bands): ... lst_arrs.append(arr)
ds = None
if n_bands < 4:
    nrows = 1; ncols = n_bands
else:
    raise Exception('Number of bands currently unsupported')
```

The function is given the opened dataset; the raise is modelled as
`Except.error` with the exact message. -/
def plot_layer (ds : GDALDataset) : Except String PlotResult :=
  let trans := ds.geoTransform
  let extent := (trans.t0, trans.t0 + (ds.rasterXSize : ℚ) * trans.t1,
                 trans.t3 + (ds.rasterYSize : ℚ) * trans.t5, trans.t3)
  let n_bands := ds.bands.length
  let lst_arrs := ds.bands.map processBand
  if n_bands < 4 then
    Except.ok { extent := extent, nrows := 1, ncols := n_bands, arrs := lst_arrs }
  else
    Except.error "Number of bands currently unsupported"

/-- C8: `plot_layer` raises the exception with message
`Number of bands currently unsupported` if and only if the opened dataset
has 4 or more raster bands, and on every dataset with 1 to 3 bands it
proceeds and lays the bands out in one row with one column per band. -/
theorem plot_layer_band_count (ds : GDALDataset) :
    (plot_layer ds = Except.error "Number of bands currently unsupported"
      ↔ 4 ≤ ds.bands.length)
    ∧ (1 ≤ ds.bands.length → ds.bands.length ≤ 3 →
        ∃ r, plot_layer ds = Except.ok r ∧ r.nrows = 1 ∧ r.ncols = ds.bands.length) := by
  constructor
  · constructor
    · intro he
      by_contra hlt
      have h : ds.bands.length < 4 := by omega
      simp [plot_layer, h] at he
    · intro h4
      have h : ¬ ds.bands.length < 4 := by omega
      simp [plot_layer, h]
  · intro h1 h3
    have h : ds.bands.length < 4 := by omega
    simp only [plot_layer, if_pos h]
    exact ⟨_, rfl, rfl, rfl⟩

/-- Witness for C8 at a concrete two-band dataset. -/
def wBandOk : RasterBand :=
  { data := [30, 100000000000000000000000, 5], noDataQuery := Except.ok (some 5) }

/-- Witness band whose `GetNoDataValue` query raises. -/
def wBandErr : RasterBand :=
  { data := [7, 200000000000000000000000], noDataQuery := Except.error () }

/-- Witness dataset with two bands. -/
def wDataset : GDALDataset :=
  { rasterXSize := 3, rasterYSize := 1,
    geoTransform := { t0 := 10, t1 := 1, t2 := 0, t3 := 20, t4 := 0, t5 := -1 },
    bands := [wBandOk, wBandErr] }

/-- Witness for C8: the two-band witness dataset is laid out in one row
and two columns, and does not produce the unsupported-band-count error. -/
theorem plot_layer_band_count_witness :
    (plot_layer wDataset = Except.error "Number of bands currently unsupported"
      ↔ 4 ≤ wDataset.bands.length)
    ∧ (∃ r, plot_layer wDataset = Except.ok r ∧ r.nrows = 1
        ∧ r.ncols = wDataset.bands.length) :=
  ⟨(plot_layer_band_count wDataset).1,
   (plot_layer_band_count wDataset).2 (by decide) (by decide)⟩

/-- Helper: the mask computed in the success branch of the band loop
(`(arr>1e20) |(arr==NoData)`) holds exactly when the value exceeds `1e20`
or equals the no-data value. -/
theorem mask_ok_char (NoData : Option ℚ) (v : ℚ) :
    (decide (v > oneE20) || pyEqNoData v NoData) = decide (v > oneE20 ∨ NoData = some v) := by
  cases NoData <;> simp [pyEqNoData, Bool.decide_or, eq_comm]

/-- Helper: a successful run of `plot_layer` carries exactly the processed
band arrays. -/
theorem plot_layer_arrs (ds : GDALDataset) (r : PlotResult)
    (hr : plot_layer ds = Except.ok r) : r.arrs = ds.bands.map processBand := by
  by_cases h : ds.bands.length < 4
  · simp only [plot_layer, if_pos h, Except.ok.injEq] at hr
    rw [← hr]
  · simp [plot_layer, if_neg h] at hr

/-- C9: in a run of `plot_layer`, every pixel of every band is masked
exactly when its value exceeds `1e20` or equals the no-data value the
band query returned; when the no-data query raises, the error is not
propagated (the run still returns its result) and the pixel is masked
exactly when its value exceeds `1e20`. -/
theorem plot_layer_masking (ds : GDALDataset) (r : PlotResult)
    (hr : plot_layer ds = Except.ok r)
    (i : ℕ) (b : RasterBand) (hb : ds.bands[i]? = some b)
    (j : ℕ) (v : ℚ) (hv : b.data[j]? = some v) :
    (∀ NoData, b.noDataQuery = Except.ok NoData →
       ∃ row, r.arrs[i]? = some row ∧
         row[j]? = some (v, decide (v > oneE20 ∨ NoData = some v)))
    ∧ (∀ e : Unit, b.noDataQuery = Except.error e →
       ∃ row, r.arrs[i]? = some row ∧
         row[j]? = some (v, decide (v > oneE20))) := by
  have harrs : r.arrs[i]? = some (processBand b) := by
    rw [plot_layer_arrs ds r hr, List.getElem?_map, hb, Option.map_some']
  constructor
  · intro NoData hnd
    refine ⟨processBand b, harrs, ?_⟩
    simp only [processBand, hnd, masked_where, List.getElem?_map, hv, Option.map_some']
    rw [mask_ok_char]
  · intro e hnd
    refine ⟨processBand b, harrs, ?_⟩
    simp only [processBand, hnd, masked_where, List.getElem?_map, hv, Option.map_some']

/-- Witness result value of `plot_layer` on the witness dataset. -/
def wResult : PlotResult :=
  { extent := (10, 10 + ((3 : ℕ) : ℚ) * 1, 20 + ((1 : ℕ) : ℚ) * (-1), 20),
    nrows := 1, ncols := 2,
    arrs := [[(30, false), (100000000000000000000000, true), (5, true)],
             [(7, false), (200000000000000000000000, true)]] }

/-- Witness for C9: on the witness dataset, pixel 0 of band 0 (value 30,
no-data 5) is unmasked, and pixel 0 of band 1 (value 7, no-data query
raises) is unmasked while the run still succeeds. -/
theorem plot_layer_masking_witness :
    (∃ row, wResult.arrs[0]? = some row ∧
       row[0]? = some ((30 : ℚ), decide ((30 : ℚ) > oneE20 ∨ (some 5 : Option ℚ) = some 30)))
    ∧ (∃ row, wResult.arrs[1]? = some row ∧
       row[0]? = some ((7 : ℚ), decide ((7 : ℚ) > oneE20))) :=
  ⟨(plot_layer_masking wDataset wResult (by rfl) 0 wBandOk (by rfl) 0 30 (by rfl)).1
      (some 5) rfl,
   (plot_layer_masking wDataset wResult (by rfl) 1 wBandErr (by rfl) 0 7 (by rfl)).2
      () rfl⟩

/-! ### Part 1 (continued): the masking cell of the GDAL basics tutorial

```
NDV = unwPhase.GetRasterBand(1).GetNoDataValue()
unwPhase = None
connComp = gdal.Open("NETCDF:"+fileName+":/science/grids/data/connectedComponents")
connCompData = connComp.GetRasterBand(1).ReadAsArray()
connComp = None
unwDataMasked = np.ma.masked_array(unwData, mask=unwData==NDV, fill_value=999999)
unwDataMasked = np.ma.masked_array(unwDataMasked, mask=connCompData==0, fill_value=999999)
```

`unwData` was read from the `unwrappedPhase` band in an earlier cell. -/

/-- A numpy masked array: data, mask and fill value. -/
structure NpMaskedArray where
  data : List ℚ
  mask : List Bool
  fill_value : ℚ

/-- Modelled from the numpy documented contract of
`np.ma.masked_array(data, mask, fill_value)` on a plain ndarray: the given
data, mask and fill value. -/
def np_ma_masked_array (data : List ℚ) (mask : List Bool) (fill_value : ℚ) :
    NpMaskedArray :=
  { data := data, mask := mask, fill_value := fill_value }

/-- Modelled from the numpy documented contract of
`np.ma.masked_array(m, mask, fill_value)` when the data argument is itself
a masked array: with the default `keep_mask=True` the new mask is combined
with the existing one by elementwise OR; the underlying data is kept. -/
def np_ma_masked_array_ma (m : NpMaskedArray) (mask : List Bool) (fill_value : ℚ) :
    NpMaskedArray :=
  { data := m.data, mask := List.zipWith (fun a b => a || b) m.mask mask,
    fill_value := fill_value }

/-- The masking cell of the GDAL basics tutorial, as a function of the
arrays read from the two sub-datasets and of the no-data value returned by
`GetNoDataValue()` (a float, or the Python `None`).  The elementwise
comparisons `unwData==NDV` and `connCompData==0` build the two mask
arguments. -/
def maskingCell (unwData : List ℚ) (connCompData : List ℚ) (NDV : Option ℚ) :
    NpMaskedArray :=
  let unwDataMasked :=
    np_ma_masked_array unwData (unwData.map (fun v => pyEqNoData v NDV)) 999999
  np_ma_masked_array_ma unwDataMasked
    (connCompData.map (fun c => decide (c = 0))) 999999

/-- C10: the masking cell produces a masked array that is masked exactly
where the unwrapped-phase value equals the no-data value or the
connected-components value is 0, has fill value 999999, and leaves the
underlying data unchanged. -/
theorem maskingCell_spec (unwData connCompData : List ℚ) (NDV : Option ℚ) :
    (maskingCell unwData connCompData NDV).data = unwData
    ∧ (maskingCell unwData connCompData NDV).fill_value = 999999
    ∧ ∀ (j : ℕ) (u c : ℚ), unwData[j]? = some u → connCompData[j]? = some c →
        (maskingCell unwData connCompData NDV).mask[j]? =
          some (decide (NDV = some u ∨ c = 0)) := by
  refine ⟨rfl, rfl, ?_⟩
  intro j u c hu hc
  have hu2 : (unwData.map (fun v => pyEqNoData v NDV))[j]? = some (pyEqNoData u NDV) := by
    rw [List.getElem?_map, hu, Option.map_some']
  have hc2 : (connCompData.map (fun v => decide (v = 0)))[j]? = some (decide (c = 0)) := by
    rw [List.getElem?_map, hc, Option.map_some']
  have h1 := (List.getElem?_eq_some.1 hu2).1
  have h2 := (List.getElem?_eq_some.1 hc2).1
  have hz : j < (List.zipWith (fun a b => a || b)
      (unwData.map (fun v => pyEqNoData v NDV))
      (connCompData.map (fun v => decide (v = 0)))).length := by
    rw [List.length_zipWith]; omega
  simp only [maskingCell, np_ma_masked_array_ma, np_ma_masked_array]
  rw [List.getElem?_eq_getElem hz, List.getElem_zipWith]
  rw [List.getElem?_eq_getElem h1] at hu2
  rw [List.getElem?_eq_getElem h2] at hc2
  rw [Option.some.injEq] at hu2 hc2
  rw [hu2, hc2]
  cases NDV <;> simp [pyEqNoData, Bool.decide_or, eq_comm]

/-- Witness for C10 at concrete arrays: data `[1,2,3]`, connected
components `[0,5,7]`, no-data value 2; index 1 is masked because the
value equals the no-data value. -/
theorem maskingCell_spec_witness :
    (maskingCell [1, 2, 3] [0, 5, 7] (some 2)).data = [1, 2, 3]
    ∧ (maskingCell [1, 2, 3] [0, 5, 7] (some 2)).fill_value = 999999
    ∧ (maskingCell [1, 2, 3] [0, 5, 7] (some 2)).mask[1]? =
        some (decide ((some 2 : Option ℚ) = some 2 ∨ (5 : ℚ) = 0)) :=
  ⟨(maskingCell_spec [1, 2, 3] [0, 5, 7] (some 2)).1,
   (maskingCell_spec [1, 2, 3] [0, 5, 7] (some 2)).2.1,
   (maskingCell_spec [1, 2, 3] [0, 5, 7] (some 2)).2.2 1 2 5 rfl rfl⟩

/-! ### Part 2: structural inventories of the notebook code cells

Each code cell of the three notebooks is transcribed as a list of
statement-level operations in source order.  Cell indices are the
nbformat cell indices within each notebook.  Shell lines (`!prog args`)
keep their tokens; quoted arguments are single tokens.  Library calls
record the module kind and the called function. -/

/-- Kind of the module a Python call goes into. -/
inductive ModKind
  | geo      -- the geospatial libraries: osgeo (gdal, ogr, osr) and cartopy
  | numpy    -- numpy
  | mpl      -- matplotlib (the charting library)
  | stdlib   -- the Python standard library (os, sys)
  | inRepo   -- a function defined by the notebooks themselves
deriving DecidableEq

/-- One statement-level operation of a code cell. -/
inductive CellOp
  | shell (prog : String) (args : List String)  -- a "!prog args" line
  | lib (k : ModKind) (fn : String)             -- a call into a library
  | arith (descr : String)                      -- plain Python expression work
  | noneAssign (var : String)                   -- var = None
  | tryE (descr : String)                       -- a try/except construct
  | raiseE (msg : String)                       -- raise Exception(msg)
  | retryLoop (descr : String)                  -- a retry construct (none occur)
  | defFun (name : String)                      -- def name(...)
  | importM (mods : String)                     -- import statements
  | printS                                      -- a print(...) statement
deriving DecidableEq

/-- A code cell: the notebook it belongs to, its nbformat cell index, and
its operations in source order. -/
structure CodeCell where
  notebook : String
  index : ℕ
  ops : List CellOp
deriving DecidableEq

/-- Code cells of the GDAL basics notebook (GDAL_basics.ipynb, first
notebook document), in order. -/
def gdalBasicsCells : List CodeCell := [
  -- cell 3: setup (imports, directories, fileName, gdal.UseExceptions)
  { notebook := "GDAL_basics", index := 3, ops := [
      .importM "os, sys, osgeo.gdal, osgeo.osr, numpy, matplotlib.pyplot",
      .lib .stdlib "os.getcwd", .lib .stdlib "os.path.abspath",
      .lib .stdlib "os.path.join", .lib .stdlib "os.path.join",
      .printS, .printS,
      .lib .geo "gdal.UseExceptions",
      .lib .stdlib "os.path.join",
      .lib .stdlib "os.path.exists", .lib .stdlib "os.makedirs",
      .lib .stdlib "os.path.exists", .lib .stdlib "os.makedirs",
      .lib .stdlib "os.chdir"] },
  -- cell 10: download the tutorial product
  { notebook := "GDAL_basics", index := 10, ops := [
      .lib .stdlib "os.chdir",
      .shell "ariaDownload.py" ["--bbox", "41.5 42 -82 -78", "--ifg",
        "20190222_20190210", "-v", "-w", "\x7bdata_dir\x7d"]] },
  -- cell 15: ds = gdal.Open(fileName)
  { notebook := "GDAL_basics", index := 15, ops := [.lib .geo "gdal.Open"] },
  -- cell 17: dataInfo = gdal.Info(ds); print; ds = None
  { notebook := "GDAL_basics", index := 17, ops := [
      .lib .geo "gdal.Info", .printS, .noneAssign "ds"] },
  -- cell 20: gdalinfo on the product file
  { notebook := "GDAL_basics", index := 20, ops := [
      .shell "gdalinfo"
        ["./products/S1-GUNW-A-R-077-tops-20190222_20190210-231605-42666N_40796N-PP-d75b-v2_0_1.nc"]] },
  -- cell 28: open the unwrappedPhase sub-dataset and print its info
  { notebook := "GDAL_basics", index := 28, ops := [
      .arith "string concat NETCDF: + fileName + subdataset path",
      .lib .geo "gdal.Open", .lib .geo "gdal.Info", .printS] },
  -- cell 31: band statistics of the unwrapped phase; close handle
  { notebook := "GDAL_basics", index := 31, ops := [
      .lib .geo "Dataset.GetRasterBand", .lib .geo "Band.GetStatistics",
      .printS, .printS, .printS, .printS, .noneAssign "unwPhase"] },
  -- cell 35: gdalinfo on the sub-dataset
  { notebook := "GDAL_basics", index := 35, ops := [
      .shell "gdalinfo"
        ["NETCDF:\"./products/S1-GUNW-A-R-077-tops-20190222_20190210-231605-42666N_40796N-PP-d75b-v2_0_1.nc\":/science/grids/data/unwrappedPhase"]] },
  -- cell 38: gdalinfo -stats on the sub-dataset
  { notebook := "GDAL_basics", index := 38, ops := [
      .shell "gdalinfo"
        ["NETCDF:\"./products/S1-GUNW-A-R-077-tops-20190222_20190210-231605-42666N_40796N-PP-d75b-v2_0_1.nc\":/science/grids/data/unwrappedPhase",
         "-stats"]] },
  -- cell 41: gdalsrsinfo
  { notebook := "GDAL_basics", index := 41, ops := [
      .shell "gdalsrsinfo" ["EPSG:4326"]] },
  -- cell 47: re-open the unwrappedPhase sub-dataset, load it into numpy
  { notebook := "GDAL_basics", index := 47, ops := [
      .arith "string concat NETCDF: + fileName + subdataset path",
      .lib .geo "gdal.Open", .lib .geo "Dataset.GetRasterBand",
      .lib .geo "Band.ReadAsArray", .printS, .printS] },
  -- cell 49: projection and corner coordinates
  { notebook := "GDAL_basics", index := 49, ops := [
      .lib .geo "osr.SpatialReference", .lib .geo "Dataset.GetProjectionRef",
      .lib .geo "SpatialReference.ImportFromWkt",
      .lib .geo "Dataset.GetGeoTransform",
      .arith "lrLon = ulLon + RasterXSize * Lonres",
      .arith "lrLat = ulLat + RasterYSize * Latres",
      .lib .numpy "np.round", .lib .numpy "np.round",
      .lib .numpy "np.round", .lib .numpy "np.round", .printS] },
  -- cell 53: no-data value, connected components, masking
  { notebook := "GDAL_basics", index := 53, ops := [
      .lib .geo "Dataset.GetRasterBand", .lib .geo "Band.GetNoDataValue",
      .noneAssign "unwPhase",
      .arith "string concat NETCDF: + fileName + subdataset path",
      .lib .geo "gdal.Open", .lib .geo "Dataset.GetRasterBand",
      .lib .geo "Band.ReadAsArray", .noneAssign "connComp",
      .arith "elementwise unwData==NDV", .lib .numpy "np.ma.masked_array",
      .arith "elementwise connCompData==0", .lib .numpy "np.ma.masked_array"] },
  -- cell 55: basemap plot of the masked unwrapped phase
  { notebook := "GDAL_basics", index := 55, ops := [
      .importM "cartopy.io.img_tiles, cartopy.feature, cartopy.crs, cartopy.mpl.ticker",
      .lib .geo "cimgt.Stamen",
      .arith "WESN = [ulLon, lrLon, lrLat, ulLat]",
      .lib .mpl "plt.subplots", .lib .mpl "Axes.set_extent",
      .lib .geo "ccrs.Geodetic", .lib .mpl "Axes.add_image",
      .lib .mpl "Axes.coastlines", .lib .mpl "Axes.imshow",
      .lib .geo "ccrs.PlateCarree", .lib .mpl "fig.add_axes",
      .lib .mpl "fig.colorbar",
      .lib .numpy "np.arange", .lib .mpl "Axes.set_xticks",
      .lib .numpy "np.arange", .lib .mpl "Axes.set_yticks",
      .lib .mpl "Axes.grid",
      .lib .geo "LongitudeFormatter", .lib .geo "LatitudeFormatter",
      .lib .mpl "Axis.set_major_formatter", .lib .mpl "Axis.set_major_formatter",
      .lib .mpl "plt.show"] },
  -- cell 63: translate the unwrapped phase to KMZ from Python
  { notebook := "GDAL_basics", index := 63, ops := [
      .arith "string concat NETCDF: + fileName + subdataset path",
      .lib .geo "gdal.Open", .lib .geo "gdal.ParseCommandLine",
      .lib .geo "gdal.TranslateOptions", .lib .geo "gdal.Translate",
      .noneAssign "unwPhase", .printS,
      .shell "ls" ["unwrappedPhase.kmz"]] },
  -- cell 66: translate a cropped KMZ from Python
  { notebook := "GDAL_basics", index := 66, ops := [
      .arith "string concat NETCDF: + fileName + subdataset path",
      .lib .geo "gdal.Open", .lib .geo "gdal.ParseCommandLine",
      .lib .geo "gdal.TranslateOptions", .lib .geo "gdal.Translate",
      .noneAssign "unwPhase", .printS,
      .shell "ls" ["unwrappedPhaseCrop.kmz"]] },
  -- cell 70: gdal_translate from the command line
  { notebook := "GDAL_basics", index := 70, ops := [
      .shell "gdal_translate"
        ["-of", "KMLSUPEROVERLAY", "-scale", "-co", "format=png",
         "NETCDF:./products/S1-GUNW-A-R-077-tops-20190222_20190210-231605-42666N_40796N-PP-d75b-v2_0_1.nc:/science/grids/data/unwrappedPhase",
         "unwrappedPhase.kmz"],
      .shell "ls" ["unwrappedPhase.kmz"]] },
  -- cell 73: cropped gdal_translate from the command line
  { notebook := "GDAL_basics", index := 73, ops := [
      .shell "gdal_translate"
        ["-of", "KMLSUPEROVERLAY", "-scale", "-co", "format=png",
         "-projwin", "-81.00", "42.30", "-80.00", "41.50",
         "NETCDF:./products/S1-GUNW-A-R-077-tops-20190222_20190210-231605-42666N_40796N-PP-d75b-v2_0_1.nc:/science/grids/data/unwrappedPhase",
         "unwrappedPhaseCrop.kmz"],
      .shell "ls" ["unwrappedPhaseCrop.kmz"]] }]

/-- Code cells of the ariaDownload tutorial notebook (GDAL_basics.ipynb,
second notebook document), in order.  Every cell is a single shell line
except cell 13 (a `head` over the generated URL list). -/
def ariaDownloadCells : List CodeCell := [
  { notebook := "ariaDownload", index := 3, ops := [
      .shell "ariaDownload.py" []] },
  { notebook := "ariaDownload", index := 8, ops := [
      .shell "ariaDownload.py" ["--track", "4", "--output", "count"]] },
  { notebook := "ariaDownload", index := 11, ops := [
      .shell "ariaDownload.py" ["--track", "4", "--output", "url"]] },
  { notebook := "ariaDownload", index := 13, ops := [
      .shell "head" ["-n", "10", "products/download_products_4track_0.txt"]] },
  { notebook := "ariaDownload", index := 16, ops := [
      .shell "ariaDownload.py" ["--track", "4", "--output", "kmz"]] },
  { notebook := "ariaDownload", index := 24, ops := [
      .shell "ariaDownload.py" ["--track", "4", "--bbox",
        "36.75 37.225 -76.655 -75.928", "-o", "count"]] },
  { notebook := "ariaDownload", index := 27, ops := [
      .shell "ariaDownload.py" ["--track", "4", "--bbox",
        "./support_docs/HR_North.shp", "-o", "count"]] },
  { notebook := "ariaDownload", index := 31, ops := [
      .shell "ariaDownload.py" ["--track", "4", "--bbox",
        "36.75 37.225 -76.655 -75.928", "-o", "count", "--start", "20190101"]] },
  { notebook := "ariaDownload", index := 32, ops := [
      .shell "ariaDownload.py" ["--track", "4", "--bbox",
        "36.75 37.225 -76.655 -75.928", "-o", "count", "-s", "20190101",
        "--end", "20190401", "--verbose"]] },
  { notebook := "ariaDownload", index := 36, ops := [
      .shell "ariaDownload.py" ["--track", "4", "--bbox",
        "36.75 37.225 -76.655 -75.928", "-o", "count", "--daysless", "13", "-v"]] },
  { notebook := "ariaDownload", index := 38, ops := [
      .shell "ariaDownload.py" ["--track", "4", "--bbox",
        "36.75 37.225 -76.655 -75.928", "-o", "count", "--daysmore", "364"]] },
  { notebook := "ariaDownload", index := 40, ops := [
      .shell "ariaDownload.py" ["--track", "4", "--bbox",
        "36.75 37.225 -76.655 -75.928", "-o", "count", "-m", "59", "-l", "181",
        "-v"]] },
  { notebook := "ariaDownload", index := 43, ops := [
      .shell "ariaDownload.py" ["-b", "36.75 37.225 -76.655 -75.928", "-o",
        "count", "--ifg", "20161018_20160702", "-v"]] }]

/-- Code cells of the ariaPlot tutorial notebook
(ariaPlot_tutorial.ipynb), in order.  Cell 3 defines `plot_layer`; its
body operations are listed after the `defFun` marker. -/
def ariaPlotCells : List CodeCell := [
  -- cell 3: imports and the plot_layer function definition
  { notebook := "ariaPlot", index := 3, ops := [
      .importM "os, osgeo.gdal, osgeo.ogr, numpy, matplotlib.pyplot, matplotlib.ticker, mpl_toolkits.axes_grid1",
      .defFun "plot_layer",
      .lib .stdlib "os.path.dirname", .lib .stdlib "os.path.basename",
      .lib .geo "gdal.Open", .lib .geo "Dataset.GetGeoTransform",
      .arith "extent from the geotransform and the raster sizes",
      .arith "n_bands = ds.RasterCount",
      .lib .geo "Dataset.GetRasterBand", .lib .geo "Band.ReadAsArray",
      .tryE "band no-data query with fallback masking",
      .lib .geo "Band.GetNoDataValue",
      .arith "elementwise (arr>1e20)|(arr==NoData)",
      .lib .numpy "np.ma.masked_where",
      .printS,
      .arith "elementwise arr>1e20",
      .lib .numpy "np.ma.masked_where",
      .noneAssign "ds",
      .raiseE "Number of bands currently unsupported",
      .lib .mpl "plt.subplots",
      .arith "isinstance dispatch on axes",
      .lib .numpy "np.array", .lib .numpy "ndarray.ravel",
      .lib .mpl "Colormap.set_under",
      .arith "vmin, vmax, cmap and title dispatch on lay_type",
      .lib .mpl "fig.subplots_adjust",
      .lib .mpl "Axes.imshow",
      .lib .mpl "make_axes_locatable", .lib .mpl "AxesDivider.append_axes",
      .lib .mpl "FuncFormatter", .lib .mpl "fig.colorbar",
      .lib .mpl "Axes.set_title", .lib .mpl "Axes.grid",
      .lib .mpl "Axes.set_ylabel",
      .lib .numpy "np.floor",
      .lib .mpl "Axes.set_xlabel"] },
  -- cell 11: download the tutorial data
  { notebook := "ariaPlot", index := 11, ops := [
      .shell "ariaDownload.py" ["-t", "42", "-e", "20160101", "--bbox",
        "37.25 38.1 -122.6 -121.75"]] },
  -- cell 13: list the downloaded products
  { notebook := "ariaPlot", index := 13, ops := [.shell "ls" ["products"]] },
  -- cell 17: ariaPlot help text
  { notebook := "ariaPlot", index := 17, ops := [.shell "ariaPlot.py" ["-h"]] },
  -- cell 32: qualitative plots
  { notebook := "ariaPlot", index := 32, ops := [
      .shell "ariaPlot.py" ["-f", "products/*.nc", "--plotcoh",
        "--plotbperpcoh", "--makeavgoh"]] },
  -- cell 34: list the generated figures
  { notebook := "ariaPlot", index := 34, ops := [.shell "ls" ["figures"]] },
  -- cell 41: plot the average coherence raster with the in-repo helper
  { notebook := "ariaPlot", index := 41, ops := [.lib .inRepo "plot_layer"] },
  -- cell 44: spatial coverage plot
  { notebook := "ariaPlot", index := 44, ops := [
      .shell "ariaPlot.py" ["-f", "products/*.nc", "-plottracks"]] }]

/-- All code cells of the repository, in notebook order. -/
def allCells : List CodeCell :=
  gdalBasicsCells ++ ariaDownloadCells ++ ariaPlotCells

/-- All statement-level operations of all code cells. -/
def allOps : List CellOp := (allCells.map CodeCell.ops).flatten

/-! ### C2: cell categories -/

/-- The five pre-built command-line programs the spec lists. -/
def listedPrograms : List String :=
  ["ariaDownload.py", "ariaPlot.py", "gdalinfo", "gdal_translate", "gdalsrsinfo"]

/-- An operation is in one of the three categories the claim states:
(a) a call into a third-party geospatial library, (b) a shell line running
one of the five listed pre-built programs, (c) plotting with the charting
library. -/
def opInStatedCategories : CellOp → Bool
  | CellOp.lib ModKind.geo _ => true
  | CellOp.shell prog _ => listedPrograms.contains prog
  | CellOp.lib ModKind.mpl _ => true
  | _ => false

/-- C2 counterexample: not every cell falls in the three stated
categories; the cell `!ls products` of the ariaPlot tutorial (cell 13)
shells out to `ls`, which is none of the five listed programs, and is in
no other stated category. -/
theorem cell_outside_stated_categories :
    ¬ (allCells.all (fun c => c.ops.all opInStatedCategories) = true)
    ∧ ({ notebook := "ariaPlot", index := 13,
         ops := [CellOp.shell "ls" ["products"]] } : CodeCell) ∈ allCells
    ∧ opInStatedCategories (CellOp.shell "ls" ["products"]) = false := by
  refine ⟨by decide, by decide, by decide⟩

/-- The shell utilities the notebooks also invoke. -/
def shellUtilities : List String := ["ls", "head"]

/-- An operation is documentation glue: a call into a third-party library
(geospatial, numpy, matplotlib, the standard library) or the in-repo
helper, a shell line running one of the five listed programs or a listed
shell utility, simple assignments, elementary arithmetic, imports,
prints, or the error-handling constructs around those calls. -/
def opIsGlue : CellOp → Bool
  | CellOp.shell prog _ =>
      listedPrograms.contains prog || shellUtilities.contains prog
  | CellOp.lib _ _ => true
  | CellOp.arith _ => true
  | CellOp.noneAssign _ => true
  | CellOp.tryE _ => true
  | CellOp.raiseE _ => true
  | CellOp.retryLoop _ => false
  | CellOp.defFun _ => true
  | CellOp.importM _ => true
  | CellOp.printS => true

/-- C2 amended: every operation of every notebook cell is documentation
glue: a third-party library call (geospatial, numpy, matplotlib or the
Python standard library) or a call to the in-repo `plot_layer` helper, a
shell line running one of the five listed pre-built programs or the shell
utilities `ls` and `head`, plotting, or simple assignments, elementary
arithmetic and error handling around those calls; no cell performs
original algorithmic computation beyond this glue. -/
theorem cells_are_glue :
    allCells.all (fun c => c.ops.all opIsGlue) = true := by decide

/-! ### C1: error-handling constructs -/

/-- An operation that implements in-repo error handling: catching an
error, raising an own error, or retrying. -/
def isErrHandlingOp : CellOp → Bool
  | CellOp.tryE _ => true
  | CellOp.raiseE _ => true
  | CellOp.retryLoop _ => true
  | _ => false

/-- C1 counterexample: in-repo code does catch an error and does raise an
error of its own.  The `plot_layer` cell of the ariaPlot tutorial holds a
try/except that substitutes fallback masking when the no-data query
fails, and a raise of an own exception for unsupported band counts. -/
theorem error_handling_present :
    ¬ (allCells.all (fun c => c.ops.all (fun o => !isErrHandlingOp o)) = true)
    ∧ allOps.contains (CellOp.tryE "band no-data query with fallback masking") = true
    ∧ allOps.contains (CellOp.raiseE "Number of bands currently unsupported") = true := by
  refine ⟨by decide, by decide, by decide⟩

/-- C1 amended: the only in-repo error handling in the repository is in
`plot_layer` (ariaPlot tutorial, cell 3): one try/except that catches a
failure of the no-data query and falls back to masking only values above
`1e20` (the fallback substitutes behaviour instead of propagating the
error, as the `processBand` equation states), and one raise of the
exception for 4 or more bands; there are no retries and no other
error-handling constructs anywhere in the notebooks. -/
theorem error_handling_exactly_plot_layer :
    allOps.filter isErrHandlingOp =
      [CellOp.tryE "band no-data query with fallback masking",
       CellOp.raiseE "Number of bands currently unsupported"]
    ∧ (allCells.filter (fun c => c.ops.any isErrHandlingOp)).map
        (fun c => (c.notebook, c.index)) = [("ariaPlot", 3)]
    ∧ ∀ ps : List ℚ,
        processBand { data := ps, noDataQuery := Except.error () } =
          masked_where (fun v => decide (v > oneE20)) ps := by
  refine ⟨by decide, by decide, fun ps => rfl⟩

/-! ### C3: dataset handle lifecycle -/

/-- An event in the life of a GDAL dataset handle variable, in cell
order: bound by `gdal.Open`, bound by `gdal.Translate`, read (data or
metadata), or set to `None`. -/
inductive HandleEvent
  | openH (v : String)
  | translateH (v : String)
  | readH (v : String)
  | closeH (v : String)
deriving DecidableEq

/-- Handle events of the GDAL basics notebook, in source order. -/
def gdalBasicsHandleEvents : List HandleEvent := [
  .openH "ds",                -- cell 15: ds = gdal.Open(fileName)
  .readH "ds",                -- cell 17: gdal.Info(ds)
  .closeH "ds",               -- cell 17: ds = None
  .openH "unwPhase",          -- cell 28: unwPhase = gdal.Open(NETCDF:...)
  .readH "unwPhase",          -- cell 28: gdal.Info(unwPhase)
  .readH "unwPhase",          -- cell 31: GetRasterBand(1).GetStatistics
  .closeH "unwPhase",         -- cell 31: unwPhase = None
  .openH "unwPhase",          -- cell 47
  .readH "unwPhase",          -- cell 47: ReadAsArray
  .readH "unwPhase",          -- cell 49: GetProjectionRef, GetGeoTransform
  .readH "unwPhase",          -- cell 53: GetNoDataValue
  .closeH "unwPhase",         -- cell 53: unwPhase = None
  .openH "connComp",          -- cell 53
  .readH "connComp",          -- cell 53: ReadAsArray
  .closeH "connComp",         -- cell 53: connComp = None
  .openH "unwPhase",          -- cell 63
  .readH "unwPhase",          -- cell 63: gdal.Translate reads it
  .translateH "kmzFile",      -- cell 63: kmzFile = gdal.Translate(...)
  .closeH "unwPhase",         -- cell 63: unwPhase = None
  .openH "unwPhase",          -- cell 66
  .readH "unwPhase",          -- cell 66: gdal.Translate reads it
  .translateH "kmzFileCrop",  -- cell 66: kmzFileCrop = gdal.Translate(...)
  .closeH "unwPhase"]         -- cell 66: unwPhase = None

/-- Handle events of one run of `plot_layer` in the ariaPlot tutorial. -/
def ariaPlotHandleEvents : List HandleEvent := [
  .openH "ds",   -- ds = gdal.Open(path_layer, gdal.GA_ReadOnly)
  .readH "ds",   -- GetGeoTransform, RasterCount, bands
  .closeH "ds"]  -- ds = None

/-- In the given suffix, the named handle is set to `None` before the
variable is bound to a new dataset. -/
def closeBeforeRebind (v : String) : List HandleEvent → Bool
  | [] => false
  | HandleEvent.closeH w :: rest =>
      if w = v then true else closeBeforeRebind v rest
  | HandleEvent.openH w :: rest =>
      if w = v then false else closeBeforeRebind v rest
  | HandleEvent.translateH w :: rest =>
      if w = v then false else closeBeforeRebind v rest
  | HandleEvent.readH _ :: rest => closeBeforeRebind v rest

/-- In the given suffix, the named handle is read at least once and then
set to `None`, before the variable is bound to a new dataset. -/
def readThenCloseBeforeRebind (v : String) : List HandleEvent → Bool
  | [] => false
  | HandleEvent.readH w :: rest =>
      if w = v then closeBeforeRebind v rest else readThenCloseBeforeRebind v rest
  | HandleEvent.closeH w :: rest =>
      if w = v then false else readThenCloseBeforeRebind v rest
  | HandleEvent.openH w :: rest =>
      if w = v then false else readThenCloseBeforeRebind v rest
  | HandleEvent.translateH w :: rest =>
      if w = v then false else readThenCloseBeforeRebind v rest

/-- The lifecycle the claim states: every handle bound by `gdal.Open`
follows open, read, set-to-None, and every handle bound by
`gdal.Translate` is set to `None`, before any rebinding. -/
def handleLifecycle : List HandleEvent → Bool
  | [] => true
  | HandleEvent.openH v :: rest =>
      readThenCloseBeforeRebind v rest && handleLifecycle rest
  | HandleEvent.translateH v :: rest =>
      closeBeforeRebind v rest && handleLifecycle rest
  | _ :: rest => handleLifecycle rest

/-- The lifecycle restricted to handles bound by `gdal.Open`. -/
def openLifecycle : List HandleEvent → Bool
  | [] => true
  | HandleEvent.openH v :: rest =>
      readThenCloseBeforeRebind v rest && openLifecycle rest
  | _ :: rest => openLifecycle rest

/-- Variables that are bound to a dataset and never set to `None`
afterwards. -/
def unreleasedVars : List HandleEvent → List String
  | [] => []
  | HandleEvent.openH v :: rest =>
      (if closeBeforeRebind v rest then [] else [v]) ++ unreleasedVars rest
  | HandleEvent.translateH v :: rest =>
      (if closeBeforeRebind v rest then [] else [v]) ++ unreleasedVars rest
  | _ :: rest => unreleasedVars rest

/-- C3 counterexample: the handle lifecycle the claim states fails on the
GDAL basics notebook at the handles returned by `gdal.Translate`:
`kmzFile` and `kmzFileCrop` are bound and never set to `None`. -/
theorem kmz_handles_unreleased :
    ¬ (handleLifecycle gdalBasicsHandleEvents = true)
    ∧ gdalBasicsHandleEvents.contains (HandleEvent.translateH "kmzFile") = true
    ∧ gdalBasicsHandleEvents.contains (HandleEvent.closeH "kmzFile") = false
    ∧ gdalBasicsHandleEvents.contains (HandleEvent.closeH "kmzFileCrop") = false := by
  refine ⟨by decide, by decide, by decide, by decide⟩

/-- C3 amended: every dataset handle the notebooks obtain from `gdal.Open`
follows the lifecycle open, read, set-to-None; the two handles returned
by `gdal.Translate` (`kmzFile` and `kmzFileCrop`) are never set to `None`
and are exactly the handles left unreleased at the end of the cell
sequences. -/
theorem open_handles_released :
    openLifecycle gdalBasicsHandleEvents = true
    ∧ openLifecycle ariaPlotHandleEvents = true
    ∧ unreleasedVars gdalBasicsHandleEvents = ["kmzFile", "kmzFileCrop"]
    ∧ unreleasedVars ariaPlotHandleEvents = [] := by
  refine ⟨by decide, by decide, by decide, by decide⟩

/-! ### C4: ariaDownload.py invocations -/

/-- All shell invocations of the given program across the notebooks
(argument token lists, from the cell inventory). -/
def shellInvocations (prog : String) : List (List String) :=
  (allCells.map (fun c => c.ops.filterMap (fun o =>
    match o with
    | CellOp.shell p args => if p = prog then some args else none
    | _ => none))).flatten

/-- Modelled from the spec: `ariaDownload.py` itself is an external tool
that is not part of this repository; its documented signature (section 6
of the spec) names the options track, bbox, ifg, start, end, daysless,
daysmore, output, workdir and verbose, and the tool accepts each of them
under a short and a long command-line spelling, as the tutorial notebooks
themselves document (for example `-t 004 -o download` next to `--track`
and `--output`).  This maps each spelling to its canonical option name;
an undocumented spelling maps to `none`. -/
def canonicalFlag : String → Option String
  | "--track" => some "track"
  | "-t" => some "track"
  | "--bbox" => some "bbox"
  | "-b" => some "bbox"
  | "--ifg" => some "ifg"
  | "-i" => some "ifg"
  | "--start" => some "start"
  | "-s" => some "start"
  | "--end" => some "end"
  | "-e" => some "end"
  | "--daysless" => some "daysless"
  | "-l" => some "daysless"
  | "--daysmore" => some "daysmore"
  | "-m" => some "daysmore"
  | "--output" => some "output"
  | "-o" => some "output"
  | "--workdir" => some "workdir"
  | "-w" => some "workdir"
  | "--verbose" => some "verbose"
  | "-v" => some "verbose"
  | _ => none

/-- Every documented option takes a value except the verbose switch. -/
def flagTakesValue (f : String) : Bool := !(f == "verbose")

/-- Parse an `ariaDownload.py` invocation into canonical
(option, value) pairs; fails if any token is not a documented option or a
value-taking option has no value. -/
def parseInvocation : List String → Option (List (String × Option String))
  | [] => some []
  | tok :: rest =>
    match canonicalFlag tok with
    | none => none
    | some f =>
      if flagTakesValue f then
        match rest with
        | [] => none
        | v :: rest2 => (parseInvocation rest2).map (fun ps => (f, some v) :: ps)
      else
        (parseInvocation rest).map (fun ps => (f, none) :: ps)

/-- The documented values of the output option. -/
def outputValues : List String := ["download", "count", "kmz", "url"]

/-- Every output option in the parsed invocation carries one of the four
documented values. -/
def outputValuesOK (ps : List (String × Option String)) : Bool :=
  ps.all (fun p =>
    if p.1 == "output" then
      match p.2 with
      | some v => outputValues.contains v
      | none => false
    else true)

/-- C4: every invocation of `ariaDownload.py` in the notebooks uses only
options of the documented signature (track, bbox, ifg, start, end,
daysless, daysmore, output, workdir, verbose, each under its short or
long spelling), and every value passed to the output option is one of
download, count, kmz, url. -/
theorem ariaDownload_invocations_documented :
    (shellInvocations "ariaDownload.py").all (fun args =>
      match parseInvocation args with
      | some ps => outputValuesOK ps
      | none => false) = true := by decide

/-! ### C5: KMZ exports -/

/-- A `gdal_translate` style call: the option tokens and the output
file. -/
structure TranslateCall where
  options : List String
  output : String
deriving DecidableEq

/-- The two `gdal.Translate` calls of the GDAL basics notebook
(cells 63 and 66): option strings handed to `gdal.ParseCommandLine`,
tokenized, with the output filename given to `gdal.Translate`. -/
def pythonTranslateCalls : List TranslateCall := [
  { options := ["-of", "KMLSUPEROVERLAY", "-scale", "-co", "format=png"],
    output := "unwrappedPhase.kmz" },
  { options := ["-of", "KMLSUPEROVERLAY", "-scale", "-co", "format=png",
                "-projwin", "-81.00", "42.30", "-80.00", "41.50"],
    output := "unwrappedPhaseCrop.kmz" }]

/-- View a `gdal_translate` command line as a translate call: the last
two tokens are the input and the output, the rest are options. -/
def cliTranslateCall (args : List String) : Option TranslateCall :=
  match args.reverse with
  | out :: _inp :: revOpts => some { options := revOpts.reverse, output := out }
  | _ => none

/-- The documented KMZ option set. -/
def kmzBaseOpts : List String := ["-of", "KMLSUPEROVERLAY", "-scale", "-co", "format=png"]

/-- The optional crop extension: nothing, or `-projwin` with four corner
tokens. -/
def validProjwinExt : List String → Bool
  | [] => true
  | ["-projwin", _, _, _, _] => true
  | _ => false

/-- The filename ends in `.kmz` (stated over the character list). -/
def endsInKmz (s : String) : Bool :=
  decide (s.toList.reverse.take 4 = ".kmz".toList.reverse)

/-- A translate call is a documented KMZ export: exactly the base option
set, optionally extended with `-projwin W N E S`, writing a `.kmz`
output. -/
def validKmz (tc : TranslateCall) : Bool :=
  decide (tc.options.take 5 = kmzBaseOpts)
    && validProjwinExt (tc.options.drop 5)
    && endsInKmz tc.output

/-- C5: every KMZ export in the notebooks, via the `gdal_translate`
command line and via `gdal.Translate` in Python, uses exactly the
documented option set `-of KMLSUPEROVERLAY -scale -co format=png`,
optionally extended with `-projwin W N E S`, and writes an output whose
name ends in `.kmz`. -/
theorem kmz_exports_documented :
    pythonTranslateCalls.all validKmz = true
    ∧ (shellInvocations "gdal_translate").all (fun args =>
        match cliTranslateCall args with
        | some tc => validKmz tc
        | none => false) = true := by
  refine ⟨by decide, by decide⟩

/-! ### C6: product filenames and subdataset paths -/

/-- A use of a product filename or netCDF subdataset path in code: as a
single fixed string literal, as the concatenation
`"NETCDF:" + fileName + subdataset-path`, or as an `os.path.join` of a
directory variable with a filename literal. -/
inductive NameUse
  | strLit (ctx : String) (s : String)
  | netcdfConcat (pre : String) (fileVar : String) (sub : String)
  | pathJoin (dirVar : String) (fileLit : String)
deriving DecidableEq

/-- The fixed product filename of the GDAL basics tutorial. -/
def productFileName : String :=
  "S1-GUNW-A-R-077-tops-20190222_20190210-231605-42666N_40796N-PP-d75b-v2_0_1.nc"

/-- The two fixed subdataset paths used by the notebooks. -/
def subdatasetPaths : List String :=
  [":/science/grids/data/unwrappedPhase", ":/science/grids/data/connectedComponents"]

/-- Every use of a product filename or subdataset path in the notebook
code cells, in source order. -/
def productNameUses : List NameUse := [
  -- GDAL basics cell 3: fileName = os.path.join(data_dir, 'S1-GUNW-...nc')
  .pathJoin "data_dir" productFileName,
  -- cell 20: gdalinfo ./products/S1-GUNW-...nc
  .strLit "gdalinfo CLI, cell 20" ("./products/" ++ productFileName),
  -- cell 28: gdal.Open("NETCDF:"+fileName+":/science/grids/data/unwrappedPhase")
  .netcdfConcat "NETCDF:" "fileName" ":/science/grids/data/unwrappedPhase",
  -- cell 35: gdalinfo NETCDF:"./products/...":/science/grids/data/unwrappedPhase
  .strLit "gdalinfo CLI, cell 35"
    ("NETCDF:\"./products/" ++ productFileName ++ "\":/science/grids/data/unwrappedPhase"),
  -- cell 38: the same subdataset literal with -stats
  .strLit "gdalinfo CLI, cell 38"
    ("NETCDF:\"./products/" ++ productFileName ++ "\":/science/grids/data/unwrappedPhase"),
  -- cell 47: gdal.Open("NETCDF:"+fileName+":/science/grids/data/unwrappedPhase")
  .netcdfConcat "NETCDF:" "fileName" ":/science/grids/data/unwrappedPhase",
  -- cell 53: gdal.Open("NETCDF:"+fileName+":/science/grids/data/connectedComponents")
  .netcdfConcat "NETCDF:" "fileName" ":/science/grids/data/connectedComponents",
  -- cell 63: gdal.Open("NETCDF:"+fileName+":/science/grids/data/unwrappedPhase")
  .netcdfConcat "NETCDF:" "fileName" ":/science/grids/data/unwrappedPhase",
  -- cell 66: gdal.Open("NETCDF:"+fileName+":/science/grids/data/unwrappedPhase")
  .netcdfConcat "NETCDF:" "fileName" ":/science/grids/data/unwrappedPhase",
  -- cell 70: gdal_translate "NETCDF:./products/...:/science/grids/data/unwrappedPhase"
  .strLit "gdal_translate CLI, cell 70"
    ("NETCDF:./products/" ++ productFileName ++ ":/science/grids/data/unwrappedPhase"),
  -- cell 73: the same literal in the cropped export
  .strLit "gdal_translate CLI, cell 73"
    ("NETCDF:./products/" ++ productFileName ++ ":/science/grids/data/unwrappedPhase")]

/-- The manipulation the claim allows: a use is a fixed string literal,
or the concatenation of the fixed prefix `NETCDF:`, the fixed product
filename (held by `fileName`) and a fixed subdataset path literal. -/
def fixedUse : NameUse → Bool
  | NameUse.strLit _ _ => true
  | NameUse.netcdfConcat pre v sub =>
      pre == "NETCDF:" && v == "fileName" && subdatasetPaths.contains sub
  | NameUse.pathJoin _ _ => false

/-- C6 counterexample: the assignment
`fileName = os.path.join(data_dir, 'S1-GUNW-...nc')` (GDAL basics,
cell 3) manipulates the fixed product filename with a path join, which is
not the `NETCDF:` concatenation the claim names as the only
manipulation. -/
theorem filename_pathjoin_manipulation :
    ¬ (productNameUses.all fixedUse = true)
    ∧ productNameUses.contains (NameUse.pathJoin "data_dir" productFileName) = true
    ∧ fixedUse (NameUse.pathJoin "data_dir" productFileName) = false := by
  refine ⟨by decide, by decide, by decide⟩

/-- The manipulations the amended claim allows: additionally the single
join of the products directory variable with the fixed filename
literal. -/
def fixedUseAmended : NameUse → Bool
  | NameUse.strLit _ _ => true
  | NameUse.netcdfConcat pre v sub =>
      pre == "NETCDF:" && v == "fileName" && subdatasetPaths.contains sub
  | NameUse.pathJoin dir lit => dir == "data_dir" && lit == productFileName

/-- Test for the path-join constructor. -/
def isPathJoin : NameUse → Bool
  | NameUse.pathJoin _ _ => true
  | _ => false

/-- C6 amended: product filenames and subdataset paths appear in the
notebook code only as fixed string literals; the only manipulations are
the single `os.path.join` of the products directory with the fixed
filename literal, and the literal concatenation of the fixed prefix
`NETCDF:`, the fixed filename and a fixed subdataset path. -/
theorem product_names_fixed :
    productNameUses.all fixedUseAmended = true
    ∧ (productNameUses.filter isPathJoin).length = 1 := by
  refine ⟨by decide, by decide⟩

/-! ### C7: cross-cell state -/

/-- Kind of state a cross-cell access touches. -/
inductive StateKind
  | pyVar          -- a plain in-process Python variable of the session
  | processGlobal  -- process-level state (none occur as cross-cell accesses)
  | fileState      -- filesystem state (none occur as cross-cell accesses)
deriving DecidableEq

/-- A read, in one cell, of a variable defined by an earlier cell.
Cells also call `os.chdir` (GDAL basics cells 3 and 10), which mutates
the working directory of the interpreter process; that is process state,
not a variable defined by a cell, so it is not a cross-cell variable
access. -/
structure CrossCellAccess where
  notebook : String
  varName : String
  definedIn : ℕ
  usedIn : ℕ
  kind : StateKind
deriving DecidableEq

/-- Every cross-cell variable access in the notebooks. -/
def crossCellAccesses : List CrossCellAccess := [
  { notebook := "GDAL_basics", varName := "tutorial_home_dir", definedIn := 3,
    usedIn := 10, kind := .pyVar },
  { notebook := "GDAL_basics", varName := "data_dir", definedIn := 3,
    usedIn := 10, kind := .pyVar },
  { notebook := "GDAL_basics", varName := "ds", definedIn := 15,
    usedIn := 17, kind := .pyVar },
  { notebook := "GDAL_basics", varName := "fileName", definedIn := 3,
    usedIn := 28, kind := .pyVar },
  { notebook := "GDAL_basics", varName := "unwPhase", definedIn := 28,
    usedIn := 31, kind := .pyVar },
  { notebook := "GDAL_basics", varName := "fileName", definedIn := 3,
    usedIn := 47, kind := .pyVar },
  { notebook := "GDAL_basics", varName := "unwPhase", definedIn := 47,
    usedIn := 49, kind := .pyVar },
  { notebook := "GDAL_basics", varName := "unwPhase", definedIn := 47,
    usedIn := 53, kind := .pyVar },
  { notebook := "GDAL_basics", varName := "fileName", definedIn := 3,
    usedIn := 53, kind := .pyVar },
  { notebook := "GDAL_basics", varName := "unwData", definedIn := 47,
    usedIn := 53, kind := .pyVar },
  { notebook := "GDAL_basics", varName := "ulLon", definedIn := 49,
    usedIn := 55, kind := .pyVar },
  { notebook := "GDAL_basics", varName := "lrLon", definedIn := 49,
    usedIn := 55, kind := .pyVar },
  { notebook := "GDAL_basics", varName := "lrLat", definedIn := 49,
    usedIn := 55, kind := .pyVar },
  { notebook := "GDAL_basics", varName := "ulLat", definedIn := 49,
    usedIn := 55, kind := .pyVar },
  { notebook := "GDAL_basics", varName := "unwDataMasked", definedIn := 53,
    usedIn := 55, kind := .pyVar },
  { notebook := "GDAL_basics", varName := "fileName", definedIn := 3,
    usedIn := 63, kind := .pyVar },
  { notebook := "GDAL_basics", varName := "fileName", definedIn := 3,
    usedIn := 66, kind := .pyVar },
  { notebook := "ariaPlot", varName := "plot_layer", definedIn := 3,
    usedIn := 41, kind := .pyVar }]

/-- The free names of the body of `plot_layer` beyond its parameters and
locals. -/
def plotLayerFreeNames : List String :=
  ["os", "gdal", "np", "plt", "FuncFormatter", "make_axes_locatable",
   "isinstance", "range", "enumerate", "int", "print", "Exception"]

/-- The names bound by the import statements of the `plot_layer` cell. -/
def ariaPlotImportedNames : List String :=
  ["os", "gdal", "ogr", "np", "plt", "FuncFormatter", "FormatStrFormatter",
   "StrMethodFormatter", "make_axes_locatable"]

/-- Python builtins referenced by `plot_layer`. -/
def pythonBuiltins : List String :=
  ["print", "range", "isinstance", "enumerate", "int", "Exception"]

/-- C7: every cross-cell access in the notebooks reads a simple
in-process Python variable of the session (no other kind of shared state
is accessed across cells), and the only in-repo function, `plot_layer`,
depends only on its arguments: its free names are import bindings of its
own cell and Python builtins, never session variables defined by another
cell. -/
theorem cross_cell_state_simple :
    crossCellAccesses.all (fun a => a.kind == StateKind.pyVar) = true
    ∧ plotLayerFreeNames.all
        (fun n => (ariaPlotImportedNames ++ pythonBuiltins).contains n) = true := by
  refine ⟨by decide, by decide⟩
